import Mathlib

/-!
# Verification of the adaptive-olfactory-neuron-coding repository

Shallow embedding of the compressed-sensing decoding pipeline:
`src/load_specs.py`, `src/four_state_receptor_CS.py`, `src/decode_CS.py`,
`scripts/CS_run.py` and `scripts/temporal_CS_run.py`.

Conventions of the embedding:
* Python floats are modelled as `ℚ`.  Scalar float operations that raise in
  Python (`x ** -1.0` at `x = 0`, float division by zero) are modelled as
  `Except` failures; numpy's boundary primitives (`exp`, `log`,
  `random_matrix`, `np.random.choice`, `scipy.optimize.minimize`, the textual
  rendering used by string interpolation and `eval`) are abstract function
  parameters, since they live outside the repository.
* Python dictionaries are association lists without duplicate keys; lookup
  returns the first match and assignment replaces in place.
* Python runtime errors are the `PyError` type below.  The spec's taxonomy
  maps `AssertionError` to InvalidInput and unbound local names to the
  unbound-name (`NameError`) failure.
-/

/-- Python runtime errors that the embedded code can raise. -/
inductive PyError where
  | assertionError
  | nameError
  | attributeError
  | keyError
  | indexError
  | zeroDivisionError
  deriving DecidableEq, Repr

/-! ## Python dict primitives (association lists) -/

/-- `d[k]` read: first binding of `k` in the association list. -/
def lookup {α : Type} : List (String × α) → String → Option α
  | [], _ => none
  | (k', v') :: rest, k => if k' = k then some v' else lookup rest k

/-- `d[k] = v`: replace the binding of `k` in place, or append it. -/
def dictSet {α : Type} : List (String × α) → String → α → List (String × α)
  | [], k, v => [(k, v)]
  | (k', v') :: rest, k, v =>
      if k' = k then (k, v) :: rest else (k', v') :: dictSet rest k v

/-- Modelled from the spec: `merge_two_dicts` (utils.py, not under src/) merges
two mappings with the second overriding the first. -/
def merge_two_dicts {α : Type} (d1 d2 : List (String × α)) : List (String × α) :=
  d2.foldl (fun acc p => dictSet acc p.1 p.2) d1

/-! ## Python sequence indexing -/

/-- Python/numpy scalar indexing `l[i]`: negative indices wrap once; anything
else out of range raises IndexError. -/
def pyListGet {α : Type} (l : List α) (i : Int) : Except PyError α :=
  let j : Int := if i < 0 then i + l.length else i
  if j < 0 then .error .indexError
  else
    match l.get? j.toNat with
    | some v => .ok v
    | none => .error .indexError

/-- Python slice `l[a:b]` for non-negative bounds. -/
def pySlice {α : Type} (l : List α) (a b : ℕ) : List α :=
  (l.drop a).take (b - a)

/-! ## load_specs.py -/

/-- The four mappings read by `read_specs_file` (load_specs.py lines 62-99):
fixed variables, ordered iterated variables, relative-variable formulas and
integer parameter overrides. -/
structure SpecsDict where
  fixed_vars : List (String × ℚ)
  iter_vars : List (String × List ℚ)
  rel_vars : List (String × String)
  params : List (String × Int)

/-- `parse_iterated_vars` (load_specs.py lines 103-129): asserts the index
count equals the iterated-variable count, then assigns each variable its
value at the given index, in declaration order. -/
def parse_iterated_vars (iter_vars : List (String × List ℚ)) (iter_vars_idxs : List Int)
    (vars_to_pass : List (String × ℚ)) : Except PyError (List (String × ℚ)) :=
  if iter_vars_idxs.length ≠ iter_vars.length then .error .assertionError
  else
    (iter_vars.zip iter_vars_idxs).foldlM
      (fun acc p => do
        let v ← pyListGet p.1.2 p.2
        .ok (dictSet acc p.1.1 v))
      vars_to_pass

/-- Python substring test `sub in s`. -/
def strContains (s sub : String) : Bool :=
  decide (sub.toList <:+: s.toList)

/-- First iterated-variable name, in declaration order, occurring as a
substring of the formula (the loop over `iter_vars.keys()` with `break`). -/
def firstIterMatch (iterNames : List String) (var_rule : String) : Option String :=
  iterNames.find? (fun n => strContains var_rule n)

/-- One iteration of the `parse_relative_vars` loop body (load_specs.py lines
150-161): assert the relative name is not already bound, set the loop-local
`flag` to False, and on the first matching iterated name substitute its
rendered value into the formula, evaluate, store, and set `flag` to True.
`pyStr` renders a value as Python string interpolation does and `pyEval` is
Python's `eval`; both are boundary primitives. -/
def relStep (pyStr : ℚ → String) (pyEval : String → Except PyError ℚ)
    (iterNames : List String) (vars_to_pass : List (String × ℚ))
    (rv : String × String) : Except PyError (List (String × ℚ) × Bool) :=
  match lookup vars_to_pass rv.1 with
  | some _ => .error .assertionError
  | none =>
    match firstIterMatch iterNames rv.2 with
    | none => .ok (vars_to_pass, false)
    | some n =>
      match lookup vars_to_pass n with
      | none => .error .keyError
      | some v =>
        match pyEval (rv.2.replace n (pyStr v)) with
        | .error e => .error e
        | .ok w => .ok (dictSet vars_to_pass rv.1 w, true)

/-- The `parse_relative_vars` loop, threading the accumulator, the loop-scoped
`flag` (None models the name being unbound) and the loop variable `rel_var`. -/
def relLoop (pyStr : ℚ → String) (pyEval : String → Except PyError ℚ)
    (iterNames : List String) :
    List (String × String) → List (String × ℚ) → Option Bool → Option String →
      Except PyError (List (String × ℚ) × Option Bool × Option String)
  | [], vars_to_pass, flag, last => .ok (vars_to_pass, flag, last)
  | rv :: rest, vars_to_pass, _, _ =>
    match relStep pyStr pyEval iterNames vars_to_pass rv with
    | .error e => .error e
    | .ok (vars', f) => relLoop pyStr pyEval iterNames rest vars' (some f) (some rv.1)

/-- `parse_relative_vars` (load_specs.py lines 131-168).  After the loop the
code asserts `flag == True` (referencing the loop-scoped names `flag`,
`rel_var` and `var_rule`, unbound when the loop body never ran) and prints
`vars_to_pass[rel_var]` for the last relative variable processed. -/
def parse_relative_vars (pyStr : ℚ → String) (pyEval : String → Except PyError ℚ)
    (rel_vars : List (String × String)) (iter_vars : List (String × List ℚ))
    (vars_to_pass : List (String × ℚ)) : Except PyError (List (String × ℚ)) :=
  match relLoop pyStr pyEval (iter_vars.map Prod.fst) rel_vars vars_to_pass none none with
  | .error e => .error e
  | .ok (vars', flag, last) =>
    match flag with
    | none => .error .nameError
    | some false => .error .assertionError
    | some true =>
      match last with
      | none => .error .nameError
      | some r =>
        match lookup vars' r with
        | none => .error .keyError
        | some _ => .ok vars'

/-! ## scripts/CS_run.py -/

/-- The methods defined on the class `four_state_receptor_CS`
(four_state_receptor_CS.py lines 44-664), in source order.  Python attribute
lookup on an instance resolves method names against this table. -/
def four_state_receptor_CS_methods : List String :=
  ["set_sparse_signals", "set_manual_signals", "set_adapted_free_energy",
   "set_normal_free_energy", "set_random_free_energy", "set_mixture_Kk",
   "set_normal_Kk", "set_uniform_Kk", "add_inhibition",
   "set_Kk2_normal_activity", "set_Kk2_uniform_activity",
   "set_Kk2_normal_activity_mixture", "set_measured_activity",
   "set_linearized_response", "decode", "decode_nonlinear",
   "encode_normal_activity", "encode_uniform_activity",
   "encode_normal_activity_mixture", "encode_normal_Kk", "encode_uniform_Kk",
   "encode_mixture_Kk", "encode_adapted_normal_activity",
   "encode_manual_signal_normal_Kk", "encode_manual_signal_uniform_Kk"]

/-- CS_run.py lines 46-50: compile all run variables.  Resolves iterated
values, then relative values, then merges the fixed variables and finally the
integer parameter overrides on top (`merge_two_dicts` lets its second argument
override the first). -/
def CS_run_compile_vars (pyStr : ℚ → String) (pyEval : String → Except PyError ℚ)
    (specs : SpecsDict) (iter_var_idxs : List Int) :
    Except PyError (List (String × ℚ)) := do
  let v1 ← parse_iterated_vars specs.iter_vars iter_var_idxs []
  let v2 ← parse_relative_vars pyStr pyEval specs.rel_vars specs.iter_vars v1
  let v3 := merge_two_dicts v2 specs.fixed_vars
  .ok (merge_two_dicts v3 (specs.params.map (fun p => (p.1, (p.2 : ℚ)))))

/-- CS_run.py lines 37-55 after the specs file has been read: compile all run
variables, construct the model from the merged mapping (`__init__` assigns
fields and always succeeds), call `a.encode()`, `a.decode()`, and persist the
result keyed by the iterated-variable indices and the run identifier.  The
success value is the persistence key passed to `save_object_array`. -/
def CS_run (pyStr : ℚ → String) (pyEval : String → Except PyError ℚ)
    (specs : SpecsDict) (data_flag : String) (iter_var_idxs : List Int) :
    Except PyError (String × List Int) := do
  let _vars ← CS_run_compile_vars pyStr pyEval specs iter_var_idxs
  if four_state_receptor_CS_methods.contains "encode" then
    -- a.encode(); a.decode(); save_object_array(iter_vars, iter_var_idxs, a, data_flag)
    .ok (data_flag, iter_var_idxs)
  else
    -- `a.encode()` raises: the class defines no attribute named `encode`
    .error .attributeError

/-! ## four_state_receptor_CS.py: parameters and numeric boundary primitives -/

/-- The numeric boundary primitives used by the embedded model methods.
`exp`/`log` are numpy ufuncs; `random_matrix` (lin_alg_structs.py, not under
src/) is modelled from the spec: a deterministic pseudorandom array generator,
a pure function of shape, distribution parameters, and seed — here given
entrywise, `random_matrix1 n mu sigma seed i` being entry `i` of the length-`n`
Gaussian draw.  `choice n size seed iM` models the `iM`-th successive call to
`np.random.choice(np.arange(n), size, replace=False)` after seeding, and
`infty` stands for the IEEE float `np.inf` (not representable in `ℚ`). -/
structure NumPrims where
  exp : ℚ → ℚ
  log : ℚ → ℚ
  random_matrix1 : ℕ → ℚ → ℚ → ℕ → ℕ → ℚ
  choice : ℕ → ℕ → ℕ → ℕ → List ℕ
  infty : ℚ

/-- The subset of the `four_state_receptor_CS.__init__` fields (lines 44-163)
that the embedded methods read, with their source default values. -/
structure FourStateParams where
  Nn : ℕ := 50
  Kk : ℕ := 5
  Mm : ℕ := 20
  seed_inhibition : ℕ := 1
  seed_eps : ℕ := 1
  mu_Ss0 : ℚ := 1
  sigma_Ss0 : ℚ := 1/1000
  mu_dSs : ℚ := 3/10
  sigma_dSs : ℚ := 1/10
  inhibitory_fraction : ℚ := 0
  inhibitory_total_activity : ℚ := 0
  mu_eps : ℚ := 5
  sigma_eps : ℚ := 0
  normal_eps_tuning_prefactor : ℚ := 0
  normal_eps_tuning_width : ℚ := 1
  WL_scaling : ℚ := 0

/-! ## set_normal_free_energy (four_state_receptor_CS.py lines 259-271) -/

/-- `eps_base = mu_eps + normal_eps_tuning_prefactor *
sp.exp(-(1.*sp.arange(Mm))**2.0 / (2.0*normal_eps_tuning_width)**2.0)`
followed by `eps_base += random_matrix(Mm, params=[0, sigma_eps],
seed=seed_eps)`. -/
def set_normal_free_energy_eps_base (P : NumPrims) (p : FourStateParams) : List ℚ :=
  (List.range p.Mm).map (fun (m : ℕ) =>
    p.mu_eps + p.normal_eps_tuning_prefactor *
        P.exp (-((m : ℚ) ^ 2 / (2 * p.normal_eps_tuning_width) ^ 2))
      + P.random_matrix1 p.Mm 0 p.sigma_eps p.seed_eps m)

/-- `eps = WL_scaling * sp.log(mu_dSs) + eps_base`. -/
def set_normal_free_energy_eps (P : NumPrims) (p : FourStateParams) : List ℚ :=
  (set_normal_free_energy_eps_base P p).map
    (fun e => p.WL_scaling * P.log p.mu_dSs + e)

/-- The eps_base formula as the specification words it: the Gaussian tuning
term is `exp(-m^2 / (2 * normal_eps_tuning_width^2))`, the width squared
multiplied by two rather than the doubled width squared. -/
def spec_normal_free_energy_eps_base (P : NumPrims) (p : FourStateParams) : List ℚ :=
  (List.range p.Mm).map (fun (m : ℕ) =>
    p.mu_eps + p.normal_eps_tuning_prefactor *
        P.exp (-((m : ℚ) ^ 2 / (2 * p.normal_eps_tuning_width ^ 2)))
      + P.random_matrix1 p.Mm 0 p.sigma_eps p.seed_eps m)

/-! ## add_inhibition (four_state_receptor_CS.py lines 391-421) -/

/-- Python float `x ** -1.`: raises ZeroDivisionError at 0. -/
def pyFloatPowNegOne (q : ℚ) : Except PyError ℚ :=
  if q = 0 then .error .zeroDivisionError else .ok q⁻¹

/-- Python scalar division: raises ZeroDivisionError when the divisor is 0. -/
def pyFloatDiv (a b : ℚ) : Except PyError ℚ :=
  if b = 0 then .error .zeroDivisionError else .ok (a / b)

/-- `l[j]` for a natural index (numpy row access). -/
def pyGetNat {α : Type} (l : List α) (j : ℕ) : Except PyError α :=
  match l.get? j with
  | some v => .ok v
  | none => .error .indexError

/-- One pass of the `for iM in range(Mm)` loop of `add_inhibition`: draw the
inhibitory indices, form the excitatory complement, accumulate the two
equilibrium sums, solve the inhibitory strength
`num_inhibitory / (((total_activity**-1 - 1) * exp(-eps[iM]) *
sum_exc_activated) - sum_exc_inactivated)`, and overwrite row `iM` of `Kk1`
with the strength and of `Kk2` with infinity at the inhibitory indices. -/
def add_inhibition_step (P : NumPrims) (p : FourStateParams) (num_inhibitory : ℕ)
    (eps : List ℚ) (mats : List (List ℚ) × List (List ℚ)) (iM : ℕ) :
    Except PyError (List (List ℚ) × List (List ℚ)) := do
  let inhibitory_idxs := P.choice p.Nn num_inhibitory p.seed_inhibition iM
  let excitatory_idxs := (List.range p.Nn).filter (fun j => ¬ inhibitory_idxs.contains j)
  let row1 ← pyGetNat mats.1 iM
  let row2 ← pyGetNat mats.2 iM
  let vals1 ← excitatory_idxs.mapM (pyGetNat row1)
  let sum_exc_inactivated := 1 + (vals1.map (fun x => x⁻¹)).sum
  let vals2 ← excitatory_idxs.mapM (pyGetNat row2)
  let sum_exc_activated := 1 + (vals2.map (fun x => x⁻¹)).sum
  let itaInv ← pyFloatPowNegOne p.inhibitory_total_activity
  let epsM ← pyGetNat eps iM
  let den := (itaInv - 1) * P.exp (-epsM) * sum_exc_activated - sum_exc_inactivated
  let inhibitory_strength ← pyFloatDiv (num_inhibitory : ℚ) den
  let row1' := row1.mapIdx (fun j x => if inhibitory_idxs.contains j then inhibitory_strength else x)
  let row2' := row2.mapIdx (fun j x => if inhibitory_idxs.contains j then P.infty else x)
  .ok (mats.1.set iM row1', mats.2.set iM row2')

/-- `add_inhibition`: assert the inhibitory fraction lies in [0,1], compute
`num_inhibitory = int(1.0 * Nn * inhibitory_fraction)`, then run the per-
receptor loop over the `Kk1`/`Kk2` matrices. -/
def add_inhibition (P : NumPrims) (p : FourStateParams)
    (Kk1 Kk2 : List (List ℚ)) (eps : List ℚ) :
    Except PyError (List (List ℚ) × List (List ℚ)) :=
  if ¬ (0 ≤ p.inhibitory_fraction ∧ p.inhibitory_fraction ≤ 1) then
    .error .assertionError
  else
    let num_inhibitory := ((p.Nn : ℚ) * p.inhibitory_fraction).floor.toNat
    (List.range p.Mm).foldlM (add_inhibition_step P p num_inhibitory eps) (Kk1, Kk2)

/-! ## decode_CS.py -/

/-- The value `scipy.optimize.minimize` returns: the solution vector `x` and
the convergence information (`success`, `status`). -/
structure MinimizeResult where
  x : List ℚ
  success : Bool
  status : Int

/-- The inner objective `L1_strong`: sum of absolute values. -/
def L1_strong_objective (x : List ℚ) : ℚ :=
  (x.map (fun v => |v|)).sum

/-- `sp.dot(Rr, x)`. -/
def matVec (Rr : List (List ℚ)) (x : List ℚ) : List ℚ :=
  Rr.map (fun row => ((row.zip x).map (fun q => q.1 * q.2)).sum)

/-- Componentwise vector difference. -/
def vecSub (a b : List ℚ) : List ℚ :=
  (a.zip b).map (fun q => q.1 - q.2)

/-- The inner objective `L1_weak`: sum of absolute values plus
`precision * sum((Rr.x - Yy)^2)`. -/
def L1_weak_objective (Rr : List (List ℚ)) (Yy : List ℚ) (precision : ℚ)
    (x : List ℚ) : ℚ :=
  (x.map (fun v => |v|)).sum
    + precision * ((vecSub (matVec Rr x) Yy).map (fun v => v ^ 2)).sum

/-- `decode_CS` (decode_CS.py lines 18-45).  `normal mu sigma i` models the
`i`-th draw of `sp.random.normal(init_params[0], init_params[1], Nn)` (the
global numpy RNG); `solver` models `scipy.optimize.minimize` applied to an
objective, an initial guess of length `Nn = len(Rr[0,:])`, and an optional
equality-constraint function.  The result's `x` field is returned with the
convergence status never inspected; an unknown `opt_type` leaves `res`
unbound (NameError at `return res.x`). -/
def decode_CS (normal : ℚ → ℚ → ℕ → ℚ)
    (solver : (List ℚ → ℚ) → List ℚ → Option (List ℚ → List ℚ) → MinimizeResult)
    (Rr : List (List ℚ)) (Yy : List ℚ) (opt_type : String) (precision : ℚ)
    (init_params : ℚ × ℚ) : Except PyError (List ℚ) :=
  match Rr with
  | [] => .error .indexError
  | row0 :: _ =>
    let Nn := row0.length
    let x0 := (List.range Nn).map (normal init_params.1 init_params.2)
    if opt_type = "L1_strong" then
      .ok (solver L1_strong_objective x0
        (some (fun x => vecSub (matVec Rr x) Yy))).x
    else if opt_type = "L1_weak" then
      .ok (solver (L1_weak_objective Rr Yy precision) x0 none).x
    else .error .nameError

/-! ## scripts/temporal_CS_run.py, signal-loading phase (lines 50-57) -/

/-- After `obj.set_signal_trace()` has loaded the trace and its time axis,
the run asserts `sp.sum(obj.signal_trace <= 0) == 0` on the full loaded
trace, and only then truncates both arrays to the optional signal window. -/
def temporal_signal_phase (signal_trace signal_trace_Tt : List ℚ)
    (signal_window : Option (ℕ × ℕ)) : Except PyError (List ℚ × List ℚ) :=
  if signal_trace.any (fun v => decide (v ≤ 0)) then .error .assertionError
  else
    match signal_window with
    | none => .ok (signal_trace, signal_trace_Tt)
    | some w => .ok (pySlice signal_trace w.1 w.2, pySlice signal_trace_Tt w.1 w.2)

/-! ## set_linearized_response (four_state_receptor_CS.py lines 553-559) -/

/-- The signal/binding/energy state of a `four_state_receptor_CS` instance at
the point where `set_linearized_response` runs. -/
structure FourStateState where
  Ss0 : List ℚ
  Ss0_noisy : List ℚ
  dSs : List ℚ
  Ss : List ℚ
  Kk1 : List (List ℚ)
  Kk2 : List (List ℚ)
  eps : List ℚ
  Rr : List (List ℚ)

/-- `set_linearized_response`: `self.Rr = linear_gain(self.Ss0, self.Kk1,
self.Kk2, self.eps)`.  Modelled from the spec: `linear_gain` (kinetics.py,
not under src/) is the first-derivative sensitivity of receptor activity at a
reference vector; here it is an arbitrary function of exactly the four
arguments the source passes. -/
def set_linearized_response
    (linear_gain : List ℚ → List (List ℚ) → List (List ℚ) → List ℚ → List (List ℚ))
    (s : FourStateState) : FourStateState :=
  { s with Rr := linear_gain s.Ss0 s.Kk1 s.Kk2 s.eps }

/-- Decidable equality for `Except` results, so concrete runs can be checked
by `decide`. -/
instance {e a : Type} [DecidableEq e] [DecidableEq a] : DecidableEq (Except e a) := fun
  | .error x, .error y =>
      if h : x = y then .isTrue (by rw [h]) else .isFalse (by simp [h])
  | .error _, .ok _ => .isFalse (by simp)
  | .ok _, .error _ => .isFalse (by simp)
  | .ok x, .ok y =>
      if h : x = y then .isTrue (by rw [h]) else .isFalse (by simp [h])

/-! ## Concrete instances for witnesses and counterexamples -/

/-- Rendering primitive used at concrete instantiations (a constant function
is a legitimate instance of the abstract boundary primitive). -/
def pyStr0 : ℚ → String := fun _ => "2"

/-- Evaluation primitive used at concrete instantiations. -/
def pyEval0 : String → Except PyError ℚ := fun _ => .ok 2

/-- Specification with one iterated variable and one relative variable, no
fixed variables or parameter overrides. -/
def specs1 : SpecsDict :=
  { fixed_vars := [], iter_vars := [("x", [1, 2])],
    rel_vars := [("y", "x")], params := [] }

/-- Specification binding the name `x` both as a fixed variable (value 1) and
as an iterated variable (value 2 at index 0). -/
def specs2 : SpecsDict :=
  { fixed_vars := [("x", 1)], iter_vars := [("x", [2])],
    rel_vars := [("y", "x")], params := [] }

/-- Specification whose relative-variable mapping is empty. -/
def specs10 : SpecsDict :=
  { fixed_vars := [], iter_vars := [("x", [3])], rel_vars := [], params := [] }

/-- Concrete numeric primitives: `exp` and `log` the identity, pseudorandom
draws all zero, `np.random.choice` returning the empty selection, `np.inf`
rendered as 0.  Any such assignment instantiates the abstract boundary. -/
def numPrims0 : NumPrims :=
  { exp := fun q => q, log := fun q => q,
    random_matrix1 := fun _ _ _ _ _ => 0,
    choice := fun _ _ _ _ => [], infty := 0 }

/-- Model parameters for the free-energy counterexample: two receptors and a
unit tuning prefactor, everything else at the source defaults. -/
def fsParams4 : FourStateParams :=
  { Mm := 2, normal_eps_tuning_prefactor := 1 }

/-- Model parameters for the inhibition failing input: one receptor, two
components, `inhibitory_fraction` and `inhibitory_total_activity` at their
source defaults 0 and 0.0. -/
def fsParams5 : FourStateParams := { Mm := 1, Nn := 2 }

/-- Same as `fsParams5` but with a nonzero total inhibitory activity. -/
def fsParams5b : FourStateParams :=
  { Mm := 1, Nn := 2, inhibitory_total_activity := 1/2 }

/-- Solver instance reporting convergence and returning the initial guess. -/
def solver1 : (List ℚ → ℚ) → List ℚ → Option (List ℚ → List ℚ) → MinimizeResult :=
  fun _ x0 _ => { x := x0, success := true, status := 0 }

/-- Solver instance returning the same solution but reporting
non-convergence. -/
def solver2 : (List ℚ → ℚ) → List ℚ → Option (List ℚ → List ℚ) → MinimizeResult :=
  fun _ x0 _ => { x := x0, success := false, status := 5 }

/-- Deterministic instance of the Gaussian initial-guess draw. -/
def normal0 : ℚ → ℚ → ℕ → ℚ := fun mu _ _ => mu

/-- Concrete instance of the abstract `linear_gain` boundary primitive. -/
def lg0 : List ℚ → List (List ℚ) → List (List ℚ) → List ℚ → List (List ℚ) :=
  fun _ Kk1 _ _ => Kk1

/-- A model state after measurement. -/
def state9a : FourStateState :=
  { Ss0 := [1], Ss0_noisy := [1], dSs := [0], Ss := [1],
    Kk1 := [[1]], Kk2 := [[1]], eps := [0], Rr := [] }

/-- The same state with a different fluctuation, noisy background, and full
signal, but identical `Ss0`, `Kk1`, `Kk2`, `eps`. -/
def state9b : FourStateState :=
  { Ss0 := [1], Ss0_noisy := [2], dSs := [5], Ss := [7],
    Kk1 := [[1]], Kk2 := [[1]], eps := [0], Rr := [] }

/-! ## Helper lemmas about the dict primitives -/

theorem lookup_dictSet_self {α : Type} (d : List (String × α)) (k : String) (v : α) :
    lookup (dictSet d k v) k = some v := by
  induction d with
  | nil => simp [dictSet, lookup]
  | cons p rest ih =>
      by_cases h : p.1 = k
      · simp [dictSet, h, lookup]
      · simp [dictSet, h, lookup, ih]

theorem lookup_dictSet_ne {α : Type} (d : List (String × α)) (k' k : String) (v : α)
    (h : k' ≠ k) : lookup (dictSet d k' v) k = lookup d k := by
  induction d with
  | nil => simp [dictSet, lookup, h]
  | cons p rest ih =>
      by_cases h2 : p.1 = k'
      · have h4 : p.1 ≠ k := by rw [h2]; exact h
        simp [dictSet, h2, lookup, h, h4]
      · by_cases h3 : p.1 = k
        · simp [dictSet, h2, lookup, h3, Ne.symm h]
        · simp [dictSet, h2, lookup, h3, ih]

theorem lookup_eq_none_of_not_mem {α : Type} (d : List (String × α)) (k : String)
    (h : k ∉ d.map Prod.fst) : lookup d k = none := by
  induction d with
  | nil => rfl
  | cons p rest ih =>
      simp only [List.map_cons, List.mem_cons] at h
      push_neg at h
      have h1 : p.1 ≠ k := fun hc => h.1 hc.symm
      simp [lookup, h1, ih h.2]

/-- Keys absent from the overriding dict keep their value from the base dict. -/
theorem lookup_merge_of_lookup_none {α : Type} (d2 d1 : List (String × α)) (k : String)
    (h : lookup d2 k = none) : lookup (merge_two_dicts d1 d2) k = lookup d1 k := by
  induction d2 generalizing d1 with
  | nil => rfl
  | cons p rest ih =>
      simp only [lookup] at h
      by_cases hp : p.1 = k
      · simp [hp] at h
      · simp only [hp, if_false] at h
        show lookup (merge_two_dicts (dictSet d1 p.1 p.2) rest) k = lookup d1 k
        rw [ih (dictSet d1 p.1 p.2) h, lookup_dictSet_ne _ _ _ _ hp]

/-- Keys present in the overriding dict take its value after the merge. -/
theorem lookup_merge_of_lookup_some {α : Type} (d2 d1 : List (String × α)) (k : String)
    (v : α) (hnd : (d2.map Prod.fst).Nodup) (h : lookup d2 k = some v) :
    lookup (merge_two_dicts d1 d2) k = some v := by
  induction d2 generalizing d1 with
  | nil => simp [lookup] at h
  | cons p rest ih =>
      simp only [List.map_cons, List.nodup_cons] at hnd
      simp only [lookup] at h
      by_cases hp : p.1 = k
      · simp only [hp, if_true, Option.some.injEq] at h
        subst h
        show lookup (merge_two_dicts (dictSet d1 p.1 p.2) rest) k = some p.2
        have hrest : lookup rest k = none := by
          apply lookup_eq_none_of_not_mem
          rw [← hp]; exact hnd.1
        rw [lookup_merge_of_lookup_none rest _ k hrest, ← hp,
          lookup_dictSet_self]
      · simp only [hp, if_false] at h
        exact ih (dictSet d1 p.1 p.2) hnd.2 h

/-! ## Claim theorems -/

/-- Claim C8: `parse_iterated_vars` with iter_vars a=[1,2,3], b=[10,20] (in
that order) and indices [1,0] extends the accumulator to a=2, b=10; and for
every iterated-variable mapping and index sequence of mismatched length it
fails with InvalidInput (the assertion at load_specs.py line 118). -/
theorem claim_C8 :
    parse_iterated_vars [("a", [1, 2, 3]), ("b", [10, 20])] [1, 0] []
        = .ok [("a", 2), ("b", 10)]
    ∧ ∀ (iter_vars : List (String × List ℚ)) (idxs : List Int)
        (acc : List (String × ℚ)), idxs.length ≠ iter_vars.length →
        parse_iterated_vars iter_vars idxs acc = .error .assertionError := by
  constructor
  · rfl
  · intro iter_vars idxs acc h
    simp [parse_iterated_vars, h]

/-- Witness for claim C8: a two-variable mapping with a one-index sequence
fails with InvalidInput. -/
theorem claim_C8_witness :
    parse_iterated_vars [("a", [1, 2, 3]), ("b", [10, 20])] [1] []
        = .error .assertionError :=
  claim_C8.2 [("a", [1, 2, 3]), ("b", [10, 20])] [1] [] (by decide)

/-- Claim C10: with an empty relative-variable mapping, `parse_relative_vars`
does not return the accumulator unchanged but fails with an unbound-name
error at the final validity assertion (the loop-scoped `flag` is never
bound); since the single grid-point run calls it unconditionally, such a
specification aborts that run. -/
theorem claim_C10 (pyStr : ℚ → String) (pyEval : String → Except PyError ℚ)
    (specs : SpecsDict) (data_flag : String) (iter_var_idxs : List Int)
    (v1 : List (String × ℚ)) (hrel : specs.rel_vars = [])
    (hit : parse_iterated_vars specs.iter_vars iter_var_idxs [] = .ok v1) :
    parse_relative_vars pyStr pyEval specs.rel_vars specs.iter_vars v1
        = .error .nameError
    ∧ CS_run pyStr pyEval specs data_flag iter_var_idxs = .error .nameError := by
  have h2 : parse_relative_vars pyStr pyEval specs.rel_vars specs.iter_vars v1
      = .error .nameError := by rw [hrel]; rfl
  refine ⟨h2, ?_⟩
  simp [CS_run, CS_run_compile_vars, bind, Except.bind, hit, h2]

/-- Witness for claim C10: a concrete specification with no rel_var records
aborts the single grid-point run with the unbound-name error. -/
theorem claim_C10_witness :
    CS_run pyStr0 pyEval0 specs10 "test" [0] = .error .nameError :=
  (claim_C10 pyStr0 pyEval0 specs10 "test" [0] [("x", 3)] rfl (by rfl)).2

/-- Claim C7: in the temporal run, any value ≤ 0 in the loaded background
signal trace aborts with InvalidInput; the check precedes the truncation to
the optional signal window, so the whole loaded trace is checked. -/
theorem claim_C7 (signal_trace signal_trace_Tt : List ℚ)
    (signal_window : Option (ℕ × ℕ)) (v : ℚ) (hv : v ∈ signal_trace)
    (hle : v ≤ 0) :
    temporal_signal_phase signal_trace signal_trace_Tt signal_window
      = .error .assertionError := by
  have h : signal_trace.any (fun u => decide (u ≤ 0)) = true :=
    List.any_eq_true.mpr ⟨v, hv, by simpa using hle⟩
  simp [temporal_signal_phase, h]

/-- Witness for claim C7: a non-positive trace value outside the requested
window [0,1) still aborts the run. -/
theorem claim_C7_witness :
    temporal_signal_phase [1, -1] [0, 1] (some (0, 1)) = .error .assertionError :=
  claim_C7 [1, -1] [0, 1] (some (0, 1)) (-1) (by decide) (by norm_num)

/-- Claim C9: `set_linearized_response` computes `Rr` from `Ss0`, `Kk1`,
`Kk2` and `eps` only; two states agreeing on those fields but differing in
`dSs`, `Ss0_noisy` or `Ss` produce the identical `Rr`, for every
instantiation of the `linear_gain` kinetics primitive. -/
theorem claim_C9
    (linear_gain : List ℚ → List (List ℚ) → List (List ℚ) → List ℚ → List (List ℚ))
    (s1 s2 : FourStateState) (h0 : s1.Ss0 = s2.Ss0) (h1 : s1.Kk1 = s2.Kk1)
    (h2 : s1.Kk2 = s2.Kk2) (h3 : s1.eps = s2.eps) :
    (set_linearized_response linear_gain s1).Rr
      = (set_linearized_response linear_gain s2).Rr := by
  simp [set_linearized_response, h0, h1, h2, h3]

/-- Witness for claim C9: two concrete states differing in `dSs`,
`Ss0_noisy` and `Ss` get the same linearized response. -/
theorem claim_C9_witness :
    (set_linearized_response lg0 state9a).Rr
      = (set_linearized_response lg0 state9b).Rr :=
  claim_C9 lg0 state9a state9b rfl rfl rfl rfl

/-- Claim C5 (code bug): with `inhibitory_fraction = 0` and the default
`inhibitory_total_activity = 0.0`, `add_inhibition` is not a no-op: the
inhibitory-strength denominator evaluates `0.0 ** -1.` and raises
ZeroDivisionError.  With a nonzero total activity the fraction-0 call does
return normally leaving `Kk1`/`Kk2` unchanged, as the claim expects. -/
theorem claim_C5 :
    add_inhibition numPrims0 fsParams5 [[1, 1]] [[1, 1]] [0]
        = .error .zeroDivisionError
    ∧ add_inhibition numPrims0 fsParams5b [[1, 1]] [[1, 1]] [0]
        = .ok ([[1, 1]], [[1, 1]]) := by
  constructor
  · rfl
  · norm_num [add_inhibition, add_inhibition_step, numPrims0, fsParams5b,
      pyGetNat, pyFloatPowNegOne, pyFloatDiv, List.mapM, List.mapM.loop,
      bind, Except.bind, pure, Except.pure, List.range_succ, List.foldlM,
      List.map_cons, List.map_nil, List.sum_cons, List.sum_nil]

/-- Claim C1 (code bug): the single grid-point run compiles its variables and
constructs the model, but `a.encode()` resolves against a class that defines
only the `encode_*` chains and no `encode`: the run raises AttributeError
before decode or persistence. -/
theorem claim_C1 :
    CS_run_compile_vars pyStr0 pyEval0 specs1 [0] = .ok [("x", 1), ("y", 2)]
    ∧ four_state_receptor_CS_methods.contains "encode" = false
    ∧ CS_run pyStr0 pyEval0 specs1 "test" [0] = .error .attributeError := by
  refine ⟨by rfl, by rfl, by rfl⟩

/-- Claim C2 (counterexample): the name `x` is bound as a fixed variable
(value 1) and as an iterated variable (value 2 at the requested index); the
claim says the iterated value 2 wins, but the compiled mapping binds `x` to
the fixed value 1, because the fixed variables are merged on top of the
iterated+relative values. -/
theorem claim_C2_counterexample :
    CS_run_compile_vars pyStr0 pyEval0 specs2 [0] = .ok [("x", 1), ("y", 2)]
    ∧ lookup [(("x" : String), (1 : ℚ)), ("y", 2)] "x" = some 1
    ∧ (1 : ℚ) ≠ 2 := by
  refine ⟨by rfl, by rfl, by norm_num⟩

/-- Claim C2 (amended): the single grid-point run merges the iterated+relative
values first, then the fixed variables, then the integer parameter overrides,
later mappings taking precedence; hence a name bound both as a fixed variable
and as an iterated (or relative) variable, and not overridden by a parameter,
takes its fixed value in the final mapping passed to the model. -/
theorem claim_C2 (pyStr : ℚ → String) (pyEval : String → Except PyError ℚ)
    (specs : SpecsDict) (iter_var_idxs : List Int)
    (v1 v2 : List (String × ℚ)) (name : String) (vfix : ℚ)
    (h1 : parse_iterated_vars specs.iter_vars iter_var_idxs [] = .ok v1)
    (h2 : parse_relative_vars pyStr pyEval specs.rel_vars specs.iter_vars v1
        = .ok v2)
    (hnd : (specs.fixed_vars.map Prod.fst).Nodup)
    (hfix : lookup specs.fixed_vars name = some vfix)
    (hpar : lookup (specs.params.map (fun q => (q.1, (q.2 : ℚ)))) name = none) :
    CS_run_compile_vars pyStr pyEval specs iter_var_idxs
        = .ok (merge_two_dicts (merge_two_dicts v2 specs.fixed_vars)
            (specs.params.map (fun q => (q.1, (q.2 : ℚ)))))
    ∧ lookup (merge_two_dicts (merge_two_dicts v2 specs.fixed_vars)
        (specs.params.map (fun q => (q.1, (q.2 : ℚ))))) name = some vfix := by
  constructor
  · simp [CS_run_compile_vars, bind, Except.bind, h1, h2]
  · rw [lookup_merge_of_lookup_none _ _ _ hpar]
    exact lookup_merge_of_lookup_some _ _ _ _ hnd hfix

/-- Witness for claim C2: on the concrete specification binding `x` both
ways, the compiled mapping holds the fixed value. -/
theorem claim_C2_witness :
    CS_run_compile_vars pyStr0 pyEval0 specs2 [0]
        = .ok (merge_two_dicts (merge_two_dicts [("x", 2), ("y", 2)]
            specs2.fixed_vars)
            (specs2.params.map (fun q => (q.1, (q.2 : ℚ)))))
    ∧ lookup (merge_two_dicts (merge_two_dicts [("x", 2), ("y", 2)]
        specs2.fixed_vars)
        (specs2.params.map (fun q => (q.1, (q.2 : ℚ))))) "x" = some 1 :=
  claim_C2 pyStr0 pyEval0 specs2 [0] [("x", 2)] [("x", 2), ("y", 2)] "x" 1
    (by rfl) (by rfl) (by simp [specs2]) (by rfl) (by rfl)

/-- Claim C3: `parse_relative_vars` substitutes the first iterated name (in
declaration order) found as a substring of a formula, evaluates, and stores
the result; it fails with InvalidInput when no iterated name is found — but
that check only reflects the last relative variable processed: an earlier
relative variable with no match is skipped silently (no value stored, no
error) whenever the last one matches. -/
theorem claim_C3 (pyStr : ℚ → String) (pyEval : String → Except PyError ℚ)
    (iter_vars : List (String × List ℚ)) (vars : List (String × ℚ))
    (r1 f1 r2 f2 n : String) (v w : ℚ)
    (h1 : lookup vars r1 = none) (h2 : lookup vars r2 = none) (h12 : r1 ≠ r2)
    (hf1 : firstIterMatch (iter_vars.map Prod.fst) f1 = none)
    (hf2 : firstIterMatch (iter_vars.map Prod.fst) f2 = some n)
    (hn : lookup vars n = some v)
    (he : pyEval (f2.replace n (pyStr v)) = .ok w) :
    parse_relative_vars pyStr pyEval [(r1, f1), (r2, f2)] iter_vars vars
        = .ok (dictSet vars r2 w)
    ∧ lookup (dictSet vars r2 w) r1 = none
    ∧ parse_relative_vars pyStr pyEval [(r1, f1)] iter_vars vars
        = .error .assertionError := by
  refine ⟨?_, ?_, ?_⟩
  · simp [parse_relative_vars, relLoop, relStep, h1, h2, hf1, hf2, hn, he,
      lookup_dictSet_self]
  · rw [lookup_dictSet_ne _ _ _ _ (Ne.symm h12)]
    exact h1
  · simp [parse_relative_vars, relLoop, relStep, h1, hf1]

/-- Witness for claim C3: with iterated variable `x`, the relative variable
`p` (formula `q`, no match) is skipped silently while `r` (formula `x+1`)
is resolved, and a lone unmatched relative variable aborts. -/
theorem claim_C3_witness :
    parse_relative_vars pyStr0 pyEval0 [("p", "q"), ("r", "x+1")]
        [("x", [3])] [("x", 3)] = .ok (dictSet [("x", 3)] "r" 2)
    ∧ lookup (dictSet [(("x" : String), (3 : ℚ))] "r" 2) "p" = none
    ∧ parse_relative_vars pyStr0 pyEval0 [("p", "q")] [("x", [3])] [("x", 3)]
        = .error .assertionError :=
  claim_C3 pyStr0 pyEval0 [("x", [3])] [("x", 3)] "p" "q" "r" "x+1" "x" 3 2
    (by rfl) (by rfl) (by decide) (by rfl) (by rfl) (by rfl) (by rfl)

/-- Claim C4 (counterexample): the Gaussian tuning term of `eps_base` is not
`exp(-m^2 / (2 * width^2))` as claimed; the source divides by the squared
doubled width `(2*width)^2`.  At width 1, prefactor 1 and receptor index 1
the two formulas disagree. -/
theorem claim_C4_counterexample :
    set_normal_free_energy_eps_base numPrims0 fsParams4
      ≠ spec_normal_free_energy_eps_base numPrims0 fsParams4 := by
  norm_num [set_normal_free_energy_eps_base, spec_normal_free_energy_eps_base,
    numPrims0, fsParams4, List.range_succ]

/-- Claim C4 (amended): for each receptor index m < Mm,
`eps[m] = WL_scaling * log(mu_dSs) + mu_eps + prefactor *
exp(-m^2 / (2*width)^2) + noise(m)`, the noise a pseudorandom Gaussian draw of
mean 0 and stddev sigma_eps with seed seed_eps. -/
theorem claim_C4 (P : NumPrims) (p : FourStateParams) (m : ℕ) (hm : m < p.Mm) :
    (set_normal_free_energy_eps P p).get? m
      = some (p.WL_scaling * P.log p.mu_dSs
          + (p.mu_eps + p.normal_eps_tuning_prefactor *
              P.exp (-((m : ℚ) ^ 2 / (2 * p.normal_eps_tuning_width) ^ 2))
            + P.random_matrix1 p.Mm 0 p.sigma_eps p.seed_eps m)) := by
  simp [set_normal_free_energy_eps, set_normal_free_energy_eps_base,
    List.getElem?_map, List.getElem?_range, hm]

/-- Witness for claim C4: the amended formula evaluated at receptor index 1
of the concrete two-receptor instance. -/
theorem claim_C4_witness :
    (set_normal_free_energy_eps numPrims0 fsParams4).get? 1
      = some (fsParams4.WL_scaling * numPrims0.log fsParams4.mu_dSs
          + (fsParams4.mu_eps + fsParams4.normal_eps_tuning_prefactor *
              numPrims0.exp (-(((1 : ℕ) : ℚ) ^ 2
                / (2 * fsParams4.normal_eps_tuning_width) ^ 2))
            + numPrims0.random_matrix1 fsParams4.Mm 0 fsParams4.sigma_eps
                fsParams4.seed_eps 1)) :=
  claim_C4 numPrims0 fsParams4 1 (by decide)

/-- Claim C6: `decode_CS` with a nonempty response matrix and opt_type
L1_strong or L1_weak returns the optimizer's solution vector, of length
equal to the column count of `Rr`, unconditionally: two solvers producing
the same solution but arbitrary different convergence statuses yield the
same decode result, and no error is raised. -/
theorem claim_C6 (normal : ℚ → ℚ → ℕ → ℚ)
    (s1 s2 : (List ℚ → ℚ) → List ℚ → Option (List ℚ → List ℚ) → MinimizeResult)
    (hx : ∀ f x0 c, (s1 f x0 c).x = (s2 f x0 c).x)
    (hlen : ∀ f x0 c, (s1 f x0 c).x.length = x0.length)
    (row0 : List ℚ) (rows : List (List ℚ)) (Yy : List ℚ) (opt_type : String)
    (hopt : opt_type = "L1_strong" ∨ opt_type = "L1_weak")
    (precision : ℚ) (init_params : ℚ × ℚ) :
    ∃ out : List ℚ,
      decode_CS normal s1 (row0 :: rows) Yy opt_type precision init_params
          = .ok out
      ∧ out.length = row0.length
      ∧ decode_CS normal s2 (row0 :: rows) Yy opt_type precision init_params
          = .ok out := by
  rcases hopt with h | h <;> subst h
  · refine ⟨_, rfl, ?_, ?_⟩
    · rw [hlen]; simp
    · simp [decode_CS, hx]
  · refine ⟨_, rfl, ?_, ?_⟩
    · rw [hlen]; simp
    · simp [decode_CS, hx]

/-- Witness for claim C6: a converged and a non-converged solver returning
the same vector give the same strong-constraint decode of a 1×2 system. -/
theorem claim_C6_witness :
    ∃ out : List ℚ,
      decode_CS normal0 solver1 [[1, 0]] [1] "L1_strong" 0 (0, 1) = .ok out
      ∧ out.length = ([(1 : ℚ), 0]).length
      ∧ decode_CS normal0 solver2 [[1, 0]] [1] "L1_strong" 0 (0, 1) = .ok out :=
  claim_C6 normal0 solver1 solver2 (fun _ _ _ => rfl) (fun _ _ _ => rfl)
    [1, 0] [] [1] "L1_strong" (Or.inl rfl) 0 (0, 1)
